import Mathlib

/-!
Verification development for the geo-matcher repository.

The annotation state engine (`geo_matcher/state.py`) is embedded as pure
functions over an append-only list of annotation records.  The geometry
metrics (`eubucco_conflator/spatial.py`) and the candidate-pair generation
pipeline (`geo_matcher/dataset.py`) are embedded over a rasterised geometry
model: a polygon is a finite set of integer grid cells, its area the number
of cells, intersection the set intersection.  External libraries that the
pipeline calls (the H3 hexagonal grid, the momepy shape descriptors and the
seeded pandas random samplers) are passed in as function parameters
(`GeoOracles`), since their outputs are data the repository merely consumes.
-/

namespace GeoMatcher

/-! ## Annotation records (`geo_matcher/state.py`)

A row of `State.results`: the dict appended by `State.add_result` /
`State.add_bulk_results`.  `match` is a Lean keyword, so the field is named
`matchLabel`. -/

structure Rec where
  neighborhood : Option String
  id_existing : String
  id_new : String
  matchLabel : String
  username : String
  time : String
deriving DecidableEq, Repr

/-- The dict literal appended by `State.add_result` (neighborhood is `None`,
the timestamp is passed in by the caller since `datetime.now()` is a clock
read). -/
def mkRec (id_existing id_new matchLabel username time : String) : Rec :=
  ⟨none, id_existing, id_new, matchLabel, username, time⟩

/-- Equality on the `drop_duplicates` subset `[id_existing, id_new, username]`. -/
def sameKey (a b : Rec) : Bool :=
  a.id_existing == b.id_existing && a.id_new == b.id_new && a.username == b.username

/-- `DataFrame.drop_duplicates(subset=[id_existing, id_new, username], keep="last")`:
a record survives iff no later record shares its key; surviving records keep
their original order. -/
def dedupLast : List Rec → List Rec
  | [] => []
  | r :: rest => if rest.any (sameKey r) then dedupLast rest else r :: dedupLast rest

/-- `State._unique_results(include_unsure)`: deduplicate keeping the latest
record per (pair, user); unless `include_unsure`, drop records whose
authoritative label is "unsure". -/
def uniqueResults (includeUnsure : Bool) (results : List Rec) : List Rec :=
  let d := dedupLast results
  if includeUnsure then d else d.filter (fun r => r.matchLabel != "unsure")

/-- `State.add_result`: validate the label, then append one record.  A raised
`ValueError` is modelled as a `some` message in the first component, with the
log unchanged; on success the error is `none` and the record is appended.
The `store_results` persistence call and the progress logging do not touch
the in-memory log and are not modelled. -/
def addResult (results : List Rec) (id_existing id_new matchLabel username now : String) :
    Option String × List Rec :=
  if matchLabel ∉ (["yes", "no", "unsure"] : List String) then
    (some ("Match label '" ++ matchLabel ++ "' must be one of: 'yes', 'no', 'unsure'."), results)
  else
    (none, results ++ [mkRec id_existing id_new matchLabel username now])

/-! ## Derived scheduling sets (`geo_matcher/state.py`) -/

/-- Keep the first occurrence per key (`drop_duplicates(subset=...)`,
keep-first, as in `_determine_overlapping_candidate_pairs`), with an
accumulator of the keys already seen. -/
def dedupByKeyAux {α β : Type} [DecidableEq β] (key : α → β) (seen : List β) :
    List α → List α
  | [] => []
  | x :: l =>
    if key x ∈ seen then dedupByKeyAux key seen l
    else x :: dedupByKeyAux key (key x :: seen) l

/-- Keep the first occurrence per key (`drop_duplicates(subset=...)`). -/
def dedupByKey {α β : Type} [DecidableEq β] (key : α → β) (l : List α) : List α :=
  dedupByKeyAux key [] l

/-- Keep the first occurrence of each element (`pandas` `unique` /
`drop_duplicates` keep-first semantics). -/
def dedupKeepFirst {α : Type} [DecidableEq α] (l : List α) : List α :=
  dedupByKey (fun x => x) l

/-- The `groupby([id_existing, id_new])` keys of the non-"unsure" unique
results (`pandas` sorts group keys; only membership in the key set matters
here, so first-appearance order is used). -/
def pairKeys (results : List Rec) : List (String × String) :=
  dedupKeepFirst ((uniqueResults false results).map (fun r => (r.id_existing, r.id_new)))

/-- Votes for "yes" on a pair: rows of the non-"unsure" unique results
(one per user) labelled "yes" (`value_counts` inside the group). -/
def yesCount (results : List Rec) (e n : String) : Nat :=
  ((uniqueResults false results).filter
    (fun r => r.id_existing == e && r.id_new == n && r.matchLabel == "yes")).length

/-- Votes for "no" on a pair. -/
def noCount (results : List Rec) (e n : String) : Nat :=
  ((uniqueResults false results).filter
    (fun r => r.id_existing == e && r.id_new == n && r.matchLabel == "no")).length

/-- `State._ambiguously_labeled_pairs`: group the non-"unsure" unique results
by pair, count "yes"/"no" votes (`reindex(columns=["yes","no"], fill_value=0)`),
and keep pairs whose absolute vote difference is below the consensus margin. -/
def ambiguouslyLabeledPairs (results : List Rec) (consensusMargin : Int) :
    List (String × String) :=
  (pairKeys results).filter
    (fun k => decide (|(yesCount results k.1 k.2 : Int) - (noCount results k.1 k.2 : Int)| <
      consensusMargin))

/-- `groupby([id_existing, id_new])["username"].nunique()` over the
non-"unsure" unique results. -/
def uniqueUserCount (results : List Rec) (e n : String) : Nat :=
  (dedupKeepFirst (((uniqueResults false results).filter
    (fun r => r.id_existing == e && r.id_new == n)).map (fun r => r.username))).length

/-- `State._insufficiently_labeled_pairs`: pairs (among the grouped keys)
labelled by fewer than `annotation_redundancy + 1` distinct users. -/
def insufficientlyLabeledPairs (results : List Rec) (annotationRedundancy : Nat) :
    List (String × String) :=
  (pairKeys results).filter
    (fun k => decide (uniqueUserCount results k.1 k.2 < annotationRedundancy + 1))

/-- `State._labeled_pairs(user)`: pairs for which the given user holds an
authoritative record (any label, `include_unsure=True`).  `user=None`
matches no row, as `username == None` is false for string usernames. -/
def labeledPairsByUser (results : List Rec) (user : Option String) : List (String × String) :=
  ((uniqueResults true results).filter
    (fun r => match user with
      | none => false
      | some u => r.username == u)).map (fun r => (r.id_existing, r.id_new))

/-- The set of pairs carrying any non-"unsure" record in the raw (not
deduplicated) log, as used by `State._unlabeled_pairs`. -/
def rawLabeledPairs (results : List Rec) : List (String × String) :=
  (results.filter (fun r => r.matchLabel != "unsure")).map (fun r => (r.id_existing, r.id_new))

/-- `State._unlabeled_pairs`: all pairs of the pairs table (in shuffled
order) minus those with a non-"unsure" record in the raw log.  The seeded
`sample(frac=1, random_state=...)` permutation is the `shuffle` parameter. -/
def unlabeledPairs (pairsTable : List (String × String))
    (shuffle : List (String × String) → List (String × String)) (results : List Rec) :
    List (String × String) :=
  (shuffle pairsTable).filter (fun p => decide (p ∉ rawLabeledPairs results))

/-- `pandas.Index.union(..., sort=False)` at the membership level: the left
index followed by the right elements not already present. -/
def indexUnion (l1 l2 : List (String × String)) : List (String × String) :=
  l1 ++ l2.filter (fun p => decide (p ∉ l1))

/-- `State._next_pairs(label_mode, user)`: the scheduling policies.  Unknown
modes raise `ValueError` (modelled as `Except.error`); the result list is the
remaining index minus the user's own labelled pairs (`drop(..., errors="ignore")`). -/
def nextPairs (pairsTable : List (String × String))
    (shuffle : List (String × String) → List (String × String)) (results : List Rec)
    (annotationRedundancy : Nat) (consensusMargin : Int) (labelMode : String)
    (user : Option String) : Except String (List (String × String)) := do
  let remaining ←
    if labelMode = "all" then
      pure (shuffle pairsTable)
    else if labelMode = "unlabeled" then
      pure (indexUnion
        (indexUnion (ambiguouslyLabeledPairs results consensusMargin)
          (insufficientlyLabeledPairs results annotationRedundancy))
        (unlabeledPairs pairsTable shuffle results))
    else if labelMode = "cross-validate" then
      pure (indexUnion (ambiguouslyLabeledPairs results consensusMargin)
        (insufficientlyLabeledPairs results annotationRedundancy))
    else
      throw ("Labeling mode '" ++ labelMode ++ "' is not supported.")
  pure (remaining.filter (fun p => decide (p ∉ labeledPairsByUser results user)))

/-! ## Queries (`State.valid_pair`, `State.get_top_labelers`) -/

/-- `State.valid_pair`: membership of `id_existing` in the `id_existing`
column and of `id_new` in the `id_new` column, checked independently. -/
def validPair (pairsTable : List (String × String)) (id_existing id_new : String) : Bool :=
  decide (id_existing ∈ pairsTable.map Prod.fst) && decide (id_new ∈ pairsTable.map Prod.snd)

/-- Number of authoritative (deduplicated, `include_unsure=True`) records of
one user: `value_counts` of the `username` column for that user. -/
def userRecordCount (results : List Rec) (u : String) : Nat :=
  ((uniqueResults true results).filter (fun r => r.username == u)).length

/-- Insert into a list sorted by descending count (the `value_counts`
descending sort; equal counts keep encounter order, an accepted
nondeterminism of the pandas sort). -/
def insertCountDesc (x : String × Nat) : List (String × Nat) → List (String × Nat)
  | [] => [x]
  | h :: l => if h.2 < x.2 then x :: h :: l else h :: insertCountDesc x l

/-- Sort user counts by descending count. -/
def sortCountsDesc : List (String × Nat) → List (String × Nat)
  | [] => []
  | h :: l => insertCountDesc h (sortCountsDesc l)

/-- `State.get_top_labelers`: `value_counts` of usernames over the
authoritative records, descending, truncated to the first five users.  The
per-user Cohen's-kappa column added alongside (sklearn, floating point) does
not alter which users appear nor their counts and is not modelled. -/
def getTopLabelers (results : List Rec) : List (String × Nat) :=
  let unique := uniqueResults true results
  let users := dedupKeepFirst (unique.map (fun r => r.username))
  (sortCountsDesc (users.map (fun u => (u, userRecordCount results u)))).take 5

/-! ## Geometry metrics (`eubucco_conflator/spatial.py`)

A polygon is rasterised as a finite set of integer grid cells; `area` is the
cell count, polygon intersection is set intersection, and the distance
between polygons is the minimal squared euclidean distance between their
cells (a monotone image of the shapely distance, adequate for nearest
selection and distance caps). -/

abbrev Geom := Finset (Int × Int)

/-- Footprint area of a rasterised polygon. -/
def area (g : Geom) : ℚ := (g.card : ℚ)

/-- Area of the intersection of two rasterised polygons. -/
def interArea (g1 g2 : Geom) : ℚ := ((g1 ∩ g2).card : ℚ)

/-- The Two-Way Area Overlap of one geometry pair:
`intersection_area / min(area_1, area_2)`, the elementwise body of
`spatial.symmetrical_pairwise_relative_overlap` (`np.minimum` is spelled
out as a conditional, which is definitionally `min`). -/
def twao (g1 g2 : Geom) : ℚ :=
  interArea g1 g2 / (if area g1 ≤ area g2 then area g1 else area g2)

/-- `spatial.symmetrical_pairwise_relative_overlap`: TWAO of position-wise
aligned geometry collections. -/
def symmetricalPairwiseRelativeOverlap (gs1 gs2 : List Geom) : List ℚ :=
  (gs1.zip gs2).map (fun p => twao p.1 p.2)

/-- `spatial.pairwise_relative_overlap`: share of each (first) geometry
overlapped by its aligned partner. -/
def pairwiseRelativeOverlap (g1 g2 : Geom) : ℚ := interArea g1 g2 / area g1

/-- `spatial.corresponding`: preliminary match estimate, TWAO above 0.1. -/
def corresponding (g1 g2 : Geom) : Bool := decide (twao g1 g2 > 1/10)

/-- `spatial.relative_overlap`: share of a geometry's footprint overlapped by
the buildings of a whole other collection (sum of pairwise intersection
areas over the own area; non-intersecting buildings contribute zero, which
matches the `fillna(0)` applied at the call site). -/
def relativeOverlap (g : Geom) (others : List Geom) : ℚ :=
  (others.map (fun o => interArea g o)).sum / area g

/-- A row of a `GeoDataFrame` after neighborhood assignment: unique index
value, geometry, H3 neighborhood cell. -/
structure Row where
  id : String
  geom : Geom
  nbh : String
deriving DecidableEq

/-- `gdf.loc[i]` on a unique string index. -/
def locRow (gdf : List Row) (i : String) : Option Row := gdf.find? (fun b => b.id == i)

/-- `spatial.overlapping`: all index pairs of intersecting geometries.
`gdf1.sindex.query(gdf2.geometry, predicate="intersects")` iterates the
query geometries (gdf2) in order; the R-tree hit order over gdf1 is modelled
as list order (accepted nondeterminism of the spatial index). -/
def overlapping (gdf1 gdf2 : List Row) : List (String × String) :=
  gdf2.flatMap (fun b2 =>
    (gdf1.filter (fun b1 => decide (b1.geom ∩ b2.geom ≠ ∅))).map (fun b1 => (b1.id, b2.id)))

/-- Minimum of two optional integers, treating `none` as missing. -/
def minOpt : Option Int → Option Int → Option Int
  | none, y => y
  | some a, none => some a
  | some a, some b => some (if a ≤ b then a else b)

instance : Std.Commutative minOpt :=
  ⟨by intro a b; cases a <;> cases b <;> simp [minOpt, ← min_def, min_comm]⟩

instance : Std.Associative minOpt := ⟨by
  intro a b c
  cases a <;> cases b <;> cases c <;> simp only [minOpt, ← min_def]
  exact congrArg some (min_assoc _ _ _)⟩

/-- Squared distance between two rasterised polygons: minimum squared
euclidean cell-to-cell distance (`none` if one raster is empty, as shapely
distance to an empty geometry is undefined). -/
def distSq (g1 g2 : Geom) : Option Int :=
  (g1 ×ˢ g2).fold minOpt none
    (fun p => some ((p.1.1 - p.2.1)^2 + (p.1.2 - p.2.2)^2))

/-- First candidate of minimal distance (`sindex.nearest` with
`return_all=False`; ties resolved by index order, an accepted
nondeterminism of the R-tree). -/
def pickMin : List (String × Int) → Option (String × Int)
  | [] => none
  | c :: rest =>
    match pickMin rest with
    | none => some c
    | some b => some (if b.2 < c.2 then b else c)

/-- Nearest row of `others` to the geometry `g`, honouring an optional
maximum distance `cap` (compared on squared distances). -/
def nearestIn (others : List Row) (g : Geom) (cap : Option ℚ) : Option String :=
  let cands := others.filterMap (fun y => (distSq g y.geom).map (fun d => (y.id, d)))
  let cands := match cap with
    | none => cands
    | some c => cands.filter (fun p => decide ((p.2 : ℚ) ≤ c ^ 2))
  (pickMin cands).map Prod.fst

/-- `spatial.nearest_neighbor`: for each building of `gdf1` the nearest
building of `gdf2`, dropped when the nearest exceeds the cap. -/
def nearestNeighborPairs (gdf1 gdf2 : List Row) (cap : Option ℚ) : List (String × String) :=
  gdf1.filterMap (fun x => (nearestIn gdf2 x.geom cap).map (fun yid => (x.id, yid)))

/-! ## Candidate-pair generation (`geo_matcher/dataset.py`)

External collaborators of the pipeline — the H3 grid functions
(`spatial.h3_index`, `spatial.h3_disk`), the momepy shape descriptors used
by `spatial.shape_characteristics`, and the seeded pandas random samplers —
are supplied as oracle functions. -/

structure GeoOracles where
  h3Index : Geom → String
  h3Disk : List String → List String
  shapeFeatures : Geom → List ℚ
  samplePairsOracle : Nat → List (String × String) → List (String × String)
  sampleNbhOracle : Nat → List String → List String

/-- `spatial._average_percentage_diff` over aligned feature vectors:
`mean(|f1 - f2| / f2)`. -/
def averagePercentageDiff (f1 f2 : List ℚ) : ℚ :=
  ((f1.zip f2).map (fun p => |(p.1 - p.2) / p.2|)).sum / ((f1.zip f2).length : ℚ)

/-- `spatial.shape_similarity` of one pair, over the oracle's four momepy
shape descriptors. -/
def shapeSimilarity (O : GeoOracles) (g1 g2 : Geom) : ℚ :=
  1 - averagePercentageDiff (O.shapeFeatures g1) (O.shapeFeatures g2)

/-- `dataset._ensure_unique_index`: if either index is non-unique, replace
both with fresh numeric indices; if the two indices overlap, tag them with
the dataset prefixes "A-" and "B-". -/
def ensureUniqueIndex (l1 l2 : List (String × Geom)) :
    List (String × Geom) × List (String × Geom) :=
  let p :=
    if (l1.map Prod.fst).Nodup ∧ (l2.map Prod.fst).Nodup then (l1, l2)
    else (l1.enum.map (fun q => (toString q.1, q.2.2)),
          l2.enum.map (fun q => (toString q.1, q.2.2)))
  if (p.1.map Prod.fst).any (fun i => i ∈ p.2.map Prod.fst) then
    (p.1.map (fun q => ("A-" ++ q.1, q.2)), p.2.map (fun q => ("B-" ++ q.1, q.2)))
  else p

/-- Neighborhood assignment `gdf["neighborhood"] = spatial.h3_index(gdf, res)`
(the H3 resolution is folded into the oracle). -/
def assignNeighborhoods (O : GeoOracles) (l : List (String × Geom)) : List Row :=
  l.map (fun p => ⟨p.1, p.2, O.h3Index p.2⟩)

/-- Insert into a list sorted by descending overlap
(`sort_values("overlap", ascending=False)`; a fixed resolution of the
unstable pandas quicksort). -/
def insertOverlapDesc (t : String × String × ℚ) :
    List (String × String × ℚ) → List (String × String × ℚ)
  | [] => [t]
  | h :: l => if h.2.2 < t.2.2 then t :: h :: l else h :: insertOverlapDesc t l

/-- Sort candidate triples by descending overlap. -/
def sortOverlapDesc : List (String × String × ℚ) → List (String × String × ℚ)
  | [] => []
  | h :: l => insertOverlapDesc h (sortOverlapDesc l)

/-- `dataset._determine_overlapping_candidate_pairs`: intersecting pairs with
TWAO above the tolerance; per building of either side only the
largest-overlap pair is kept, and the union of both keep-sets is
deduplicated. -/
def determineOverlappingCandidatePairs (gdf1 gdf2 : List Row) (tolerance : ℚ := 1/100) :
    List (String × String) :=
  let base := (overlapping gdf1 gdf2).filterMap (fun ij =>
    match locRow gdf1 ij.1, locRow gdf2 ij.2 with
    | some a, some b => some (ij.1, ij.2, twao a.geom b.geom)
    | _, _ => none)
  let masked := base.filter (fun t => decide (t.2.2 > tolerance))
  let sorted := sortOverlapDesc masked
  let maxIdx1 := dedupByKey (fun t => t.1) sorted
  let maxIdx2 := dedupByKey (fun t => t.2.1) sorted
  dedupKeepFirst ((maxIdx1 ++ maxIdx2).map (fun t => (t.1, t.2.1)))

/-- `dataset._identify_candidate_pairs`: overlap-derived pairs, then nearest
neighbours (both directions) for the buildings left unmatched, skipped when
`max_distance == 0` or either input is empty; exact duplicate pairs are
dropped. -/
def identifyCandidatePairs (gdf1 gdf2 : List Row) (maxDistance : Option ℚ) :
    List (String × String) :=
  let ov := determineOverlappingCandidatePairs gdf1 gdf2
  let gdf1NonIntersect := gdf1.filter (fun b => decide (b.id ∉ ov.map Prod.fst))
  let gdf2NonIntersect := gdf2.filter (fun b => decide (b.id ∉ ov.map Prod.snd))
  let near :=
    if maxDistance ≠ some 0 ∧ gdf1 ≠ [] ∧ gdf2 ≠ [] then
      nearestNeighborPairs gdf1NonIntersect gdf2 maxDistance ++
        (nearestNeighborPairs gdf2NonIntersect gdf1 maxDistance).map (fun p => (p.2, p.1))
    else []
  dedupKeepFirst (ov ++ near)

/-- `dataset._filter_candidate_pairs_by_neighborhood`: keep pairs whose new
building lies in one of the given neighborhoods. -/
def filterPairsByNeighborhood (pairs : List (String × String)) (gdf : List Row)
    (neighborhoods : List String) : List (String × String) :=
  pairs.filter (fun p =>
    match locRow gdf p.2 with
    | some b => decide (b.nbh ∈ neighborhoods)
    | none => false)

/-- `dataset._identify_candidate_pairs_in_neighborhoods`: restrict both
datasets to the sampled neighborhoods and their immediate H3 ring, identify
pairs there, and keep those whose new building is inside the sample. -/
def identifyCandidatePairsInNeighborhoods (O : GeoOracles) (gdf1 gdf2 : List Row)
    (neighborhoods : List String) (maxDistance : Option ℚ) : List (String × String) :=
  let nearby := O.h3Disk neighborhoods
  let g1 := gdf1.filter (fun b => decide (b.nbh ∈ nearby))
  let g2 := gdf2.filter (fun b => decide (b.nbh ∈ nearby))
  filterPairsByNeighborhood (identifyCandidatePairs g1 g2 maxDistance) gdf2 neighborhoods

/-- `dataset._verify_exhaustive_pairs`: raise unless the number of distinct
`id_existing` (resp. `id_new`) values equals the number of buildings of
gdf1 (resp. gdf2). -/
def verifyExhaustivePairs (gdf1 gdf2 : List Row) (pairs : List (String × String)) :
    Except String Unit :=
  if gdf1.length ≠ (dedupKeepFirst (pairs.map Prod.fst)).length then
    Except.error "Candidate pairs do not cover all buildings in gdf1."
  else if gdf2.length ≠ (dedupKeepFirst (pairs.map Prod.snd)).length then
    Except.error "Candidate pairs do not cover all buildings in gdf2."
  else Except.ok ()

/-- `dataset._filter_candidate_pairs_by_overlap`: keep pairs whose TWAO lies
in the inclusive range. -/
def filterPairsByOverlap (pairs : List (String × String)) (gdf1 gdf2 : List Row)
    (overlapRange : ℚ × ℚ) : List (String × String) :=
  pairs.filter (fun p =>
    match locRow gdf1 p.1, locRow gdf2 p.2 with
    | some a, some b =>
      decide (overlapRange.1 ≤ twao a.geom b.geom ∧ twao a.geom b.geom ≤ overlapRange.2)
    | _, _ => false)

/-- `dataset._filter_candidate_pairs_by_shape_similarity`: keep pairs whose
shape similarity lies in the inclusive range. -/
def filterPairsByShapeSimilarity (O : GeoOracles) (pairs : List (String × String))
    (gdf1 gdf2 : List Row) (similarityRange : ℚ × ℚ) : List (String × String) :=
  pairs.filter (fun p =>
    match locRow gdf1 p.1, locRow gdf2 p.2 with
    | some a, some b =>
      decide (similarityRange.1 ≤ shapeSimilarity O a.geom b.geom ∧
        shapeSimilarity O a.geom b.geom ≤ similarityRange.2)
    | _, _ => false)

/-- `dataset._filter_candidate_pairs_by_overlap_of_others`: keep pairs where,
on both sides, the share of the footprint overlapped by buildings other than
the paired partner stays strictly below the threshold. -/
def filterPairsByOverlapOfOthers (pairs : List (String × String)) (gdf1 gdf2 : List Row)
    (maxOverlapOthers : ℚ) : List (String × String) :=
  pairs.filter (fun p =>
    match locRow gdf1 p.1, locRow gdf2 p.2 with
    | some a, some b =>
      decide (relativeOverlap a.geom (gdf2.map (fun r => r.geom)) -
          pairwiseRelativeOverlap a.geom b.geom < maxOverlapOthers ∧
        relativeOverlap b.geom (gdf1.map (fun r => r.geom)) -
          pairwiseRelativeOverlap b.geom a.geom < maxOverlapOthers)
    | _, _ => false)

/-- `dataset._sample_candidate_pairs`: flat random sample of `n` pairs
(seeded pandas sampler supplied as oracle; `n` is clamped to the table
size first, as in the source). -/
def sampleCandidatePairs (O : GeoOracles) (pairs : List (String × String)) (n : Nat) :
    List (String × String) :=
  O.samplePairsOracle (if n > pairs.length then pairs.length else n) pairs

/-- `dataset._sample_neighborhoods`: weighted random sample of `n`
neighborhoods (seeded pandas sampler as oracle, fed the full neighborhood
column so weights by building count are available; `n` clamped to the
number of distinct neighborhoods). -/
def sampleNeighborhoods (O : GeoOracles) (gdf : List Row) (n : Nat) : List String :=
  let nbhs := gdf.map (fun r => r.nbh)
  O.sampleNbhOracle (if n > (dedupKeepFirst nbhs).length then (dedupKeepFirst nbhs).length else n)
    nbhs

/-- `dataset._remove_non_candidates`: restrict both datasets to the buildings
referenced by the pairs (`gdf.loc[pairs[col].unique()]`). -/
def removeNonCandidates (pairs : List (String × String)) (gdf1 gdf2 : List Row) :
    List Row × List Row :=
  ((dedupKeepFirst (pairs.map Prod.fst)).filterMap (locRow gdf1),
   (dedupKeepFirst (pairs.map Prod.snd)).filterMap (locRow gdf2))

/-- `dataset._drop_buildings_elsewhere`: keep only buildings in a
neighborhood touched by a pair or in its immediate H3 ring. -/
def dropBuildingsElsewhere (O : GeoOracles) (gdf1 gdf2 : List Row)
    (pairs : List (String × String)) : List Row × List Row :=
  let nbh1 := pairs.filterMap (fun p => (locRow gdf1 p.1).map (fun r => r.nbh))
  let nbh2 := pairs.filterMap (fun p => (locRow gdf2 p.2).map (fun r => r.nbh))
  let withNeighbors := O.h3Disk (dedupKeepFirst (nbh1 ++ nbh2))
  (gdf1.filter (fun b => decide (b.nbh ∈ withNeighbors)),
   gdf2.filter (fun b => decide (b.nbh ∈ withNeighbors)))

/-! ## Candidate pairs container (`eubucco_conflator/candidate_pairs.py`) -/

structure CandidatePairs where
  dataset_a : List Row
  dataset_b : List Row
  pairs : List (String × String)
deriving DecidableEq

/-- `CandidatePairs.__init__` / `_validate_inputs`.  The type, active
geometry column and neighborhood column checks hold by construction in this
embedding (every `Row` carries a geometry and a neighborhood); the CRS of
each dataset is passed alongside, and pair ids must be covered by the
respective dataset index. -/
def mkCandidatePairs (a b : List Row) (crsA crsB : String) (pairs : List (String × String)) :
    Except String CandidatePairs :=
  if crsA ≠ crsB then
    Except.error "Dataset A and Dataset B must have the same CRS."
  else if (pairs.map Prod.fst).filter (fun i => decide (i ∉ a.map Row.id)) ≠ [] then
    Except.error ("Candidate pairs contain IDs not included in Dataset A: " ++
      toString ((pairs.map Prod.fst).filter (fun i => decide (i ∉ a.map Row.id))))
  else if (pairs.map Prod.snd).filter (fun i => decide (i ∉ b.map Row.id)) ≠ [] then
    Except.error ("Candidate pairs contain IDs not included in Dataset B: " ++
      toString ((pairs.map Prod.snd).filter (fun i => decide (i ∉ b.map Row.id))))
  else Except.ok ⟨a, b, pairs⟩

/-- Python truthiness of an optional count (`if n:`): present and nonzero. -/
def truthyNat : Option Nat → Bool
  | some k => k ≠ 0
  | none => false

/-- Python truthiness of an optional float (`if max_overlap_others:`). -/
def truthyRat : Option ℚ → Bool
  | some q => q ≠ 0
  | none => false

/-- The pair-generation branch of `create_candidate_pairs_dataset`: either
identify pairs inside a weighted neighborhood sample (pruning both datasets
to the candidates, `if n_neighborhoods:` truthy) or over the full datasets. -/
def generateStage (O : GeoOracles) (gdf1 gdf2 : List Row) (maxDistance : Option ℚ)
    (nNeighborhoods : Option Nat) : List Row × List Row × List (String × String) :=
  if truthyNat nNeighborhoods then
    let nbhs := sampleNeighborhoods O gdf2 (nNeighborhoods.getD 0)
    let ps := identifyCandidatePairsInNeighborhoods O gdf1 gdf2 nbhs maxDistance
    let gg := removeNonCandidates ps gdf1 gdf2
    (gg.1, gg.2, ps)
  else
    (gdf1, gdf2, identifyCandidatePairs gdf1 gdf2 maxDistance)

/-- The optional filter chain of `create_candidate_pairs_dataset`
(`if overlap_range:`, `if similarity_range:`, `if max_overlap_others:`). -/
def filterStage (O : GeoOracles) (overlapRange similarityRange : Option (ℚ × ℚ))
    (maxOverlapOthers : Option ℚ) (gdf1 gdf2 : List Row) (ps : List (String × String)) :
    List (String × String) :=
  let ps1 := match overlapRange with
    | some r => filterPairsByOverlap ps gdf1 gdf2 r
    | none => ps
  let ps2 := match similarityRange with
    | some r => filterPairsByShapeSimilarity O ps1 gdf1 gdf2 r
    | none => ps1
  if truthyRat maxOverlapOthers then
    filterPairsByOverlapOfOthers ps2 gdf1 gdf2 (maxOverlapOthers.getD 0)
  else ps2

/-- The optional flat-sampling step of `create_candidate_pairs_dataset`
(`if n:`), which also prunes both datasets to the sampled pairs'
neighborhoods and their H3 ring. -/
def sampleStage (O : GeoOracles) (n : Option Nat) (gdf1 gdf2 : List Row)
    (ps : List (String × String)) : List Row × List Row × List (String × String) :=
  if truthyNat n then
    let ps4 := sampleCandidatePairs O ps (n.getD 0)
    let gg := dropBuildingsElsewhere O gdf1 gdf2 ps4
    (gg.1, gg.2, ps4)
  else (gdf1, gdf2, ps)

/-- `dataset.create_candidate_pairs_dataset` over already-loaded datasets
(the parquet/CRS ingestion path only builds these inputs): ensure unique
indices, assign neighborhoods, identify candidate pairs (optionally inside
sampled neighborhoods), verify exhaustiveness when no distance cap is given,
apply the optional filters and sampling, and build the validated container. -/
def createCandidatePairsDataset (O : GeoOracles) (raw1 raw2 : List (String × Geom))
    (crs1 crs2 : String) (overlapRange similarityRange : Option (ℚ × ℚ))
    (maxDistance : Option ℚ) (maxOverlapOthers : Option ℚ) (n nNeighborhoods : Option Nat) :
    Except String CandidatePairs :=
  let pr := ensureUniqueIndex raw1 raw2
  let gdf1 := assignNeighborhoods O pr.1
  let gdf2 := assignNeighborhoods O pr.2
  let t := generateStage O gdf1 gdf2 maxDistance nNeighborhoods
  match (if maxDistance = none then verifyExhaustivePairs t.1 t.2.1 t.2.2 else Except.ok ()) with
  | Except.error e => Except.error e
  | Except.ok _ =>
    let fin := sampleStage O n t.1 t.2.1
      (filterStage O overlapRange similarityRange maxOverlapOthers t.1 t.2.1 t.2.2)
    mkCandidatePairs fin.1 fin.2.1 crs1 crs2 fin.2.2

/-! ## Helper lemmas on the deduplication and sorting primitives -/

theorem mem_of_mem_dedupByKeyAux {α β : Type} [DecidableEq β] {key : α → β} {seen : List β}
    {l : List α} {a : α} (h : a ∈ dedupByKeyAux key seen l) : a ∈ l := by
  induction l generalizing seen with
  | nil => simp [dedupByKeyAux] at h
  | cons x t ih =>
    rw [dedupByKeyAux] at h
    by_cases hx : key x ∈ seen
    · rw [if_pos hx] at h
      exact List.mem_cons_of_mem _ (ih h)
    · rw [if_neg hx] at h
      rcases List.mem_cons.1 h with h | h
      · exact h ▸ List.mem_cons_self _ _
      · exact List.mem_cons_of_mem _ (ih h)

theorem mem_of_mem_dedupByKey {α β : Type} [DecidableEq β] {key : α → β} {l : List α} {a : α}
    (h : a ∈ dedupByKey key l) : a ∈ l :=
  mem_of_mem_dedupByKeyAux h

theorem mem_dedupByKeyAux_id {α : Type} [DecidableEq α] {seen : List α} {l : List α} {a : α} :
    a ∈ dedupByKeyAux (fun x => x) seen l ↔ a ∈ l ∧ a ∉ seen := by
  induction l generalizing seen with
  | nil => simp [dedupByKeyAux]
  | cons x t ih =>
    rw [dedupByKeyAux]
    by_cases hx : x ∈ seen
    · rw [if_pos hx, ih]
      constructor
      · rintro ⟨h1, h2⟩
        exact ⟨List.mem_cons_of_mem _ h1, h2⟩
      · rintro ⟨h1, h2⟩
        rcases List.mem_cons.1 h1 with rfl | h1
        · exact absurd hx h2
        · exact ⟨h1, h2⟩
    · rw [if_neg hx]
      constructor
      · intro h
        rcases List.mem_cons.1 h with rfl | h
        · exact ⟨List.mem_cons_self _ _, hx⟩
        · have := ih.1 h
          refine ⟨List.mem_cons_of_mem _ this.1, fun hs => this.2 (List.mem_cons_of_mem _ hs)⟩
      · rintro ⟨h1, h2⟩
        rcases List.mem_cons.1 h1 with rfl | h1
        · exact List.mem_cons_self _ _
        · by_cases hax : a = x
          · exact hax ▸ List.mem_cons_self _ _
          · exact List.mem_cons_of_mem _
              (ih.2 ⟨h1, fun hs => by
                rcases List.mem_cons.1 hs with h | h
                · exact hax h
                · exact h2 h⟩)

theorem mem_dedupKeepFirst_iff {α : Type} [DecidableEq α] {l : List α} {a : α} :
    a ∈ dedupKeepFirst l ↔ a ∈ l := by
  rw [dedupKeepFirst, dedupByKey, mem_dedupByKeyAux_id]
  simp

theorem nodup_dedupByKeyAux_id {α : Type} [DecidableEq α] (seen : List α) (l : List α) :
    (dedupByKeyAux (fun x => x) seen l).Nodup := by
  induction l generalizing seen with
  | nil => simp [dedupByKeyAux]
  | cons x t ih =>
    rw [dedupByKeyAux]
    by_cases hx : x ∈ seen
    · rw [if_pos hx]; exact ih seen
    · rw [if_neg hx]
      refine List.nodup_cons.2 ⟨fun hmem => ?_, ih (x :: seen)⟩
      exact (mem_dedupByKeyAux_id.1 hmem).2 (List.mem_cons_self _ _)

theorem nodup_dedupKeepFirst {α : Type} [DecidableEq α] (l : List α) :
    (dedupKeepFirst l).Nodup :=
  nodup_dedupByKeyAux_id [] l

/-- List counting argument: a duplicate-free list of elements of `ids` with
the same length as `ids` contains every element of `ids`. -/
theorem mem_of_nodup_subset_length_eq {α : Type} [DecidableEq α] {S ids : List α}
    (hnd : S.Nodup) (hsub : ∀ s ∈ S, s ∈ ids) (hlen : ids.length = S.length) :
    ∀ i ∈ ids, i ∈ S := by
  intro i hi
  have hS : S.toFinset ⊆ ids.toFinset := by
    intro a ha
    exact List.mem_toFinset.2 (hsub a (List.mem_toFinset.1 ha))
  have hcard : ids.toFinset.card ≤ S.toFinset.card := by
    calc ids.toFinset.card ≤ ids.length := ids.toFinset_card_le
      _ = S.length := hlen
      _ = S.toFinset.card := (List.toFinset_card_of_nodup hnd).symm
  have heq : S.toFinset = ids.toFinset := Finset.eq_of_subset_of_card_le hS hcard
  have : i ∈ ids.toFinset := List.mem_toFinset.2 hi
  rw [← heq] at this
  exact List.mem_toFinset.1 this

/-! ## Sorting lemmas for the top-labelers query -/

theorem mem_insertCountDesc {x y : String × Nat} {l : List (String × Nat)} :
    y ∈ insertCountDesc x l ↔ y = x ∨ y ∈ l := by
  induction l with
  | nil => simp [insertCountDesc]
  | cons hd t ih =>
    rw [insertCountDesc]
    by_cases hc : hd.2 < x.2
    · rw [if_pos hc]
      simp [List.mem_cons]
    · rw [if_neg hc]
      simp only [List.mem_cons, ih]
      constructor
      · rintro (h | h | h)
        · exact Or.inr (Or.inl h)
        · exact Or.inl h
        · exact Or.inr (Or.inr h)
      · rintro (h | h | h)
        · exact Or.inr (Or.inl h)
        · exact Or.inl h
        · exact Or.inr (Or.inr h)

theorem mem_sortCountsDesc {y : String × Nat} {l : List (String × Nat)} :
    y ∈ sortCountsDesc l ↔ y ∈ l := by
  induction l with
  | nil => simp [sortCountsDesc]
  | cons hd t ih =>
    rw [sortCountsDesc, mem_insertCountDesc]
    simp [ih]

theorem sorted_insertCountDesc {x : String × Nat} {l : List (String × Nat)}
    (h : l.Sorted (fun a b => b.2 ≤ a.2)) :
    (insertCountDesc x l).Sorted (fun a b => b.2 ≤ a.2) := by
  induction l with
  | nil => simp [insertCountDesc]
  | cons hd t ih =>
    rw [insertCountDesc]
    rcases List.sorted_cons.1 h with ⟨hhd, ht⟩
    by_cases hc : hd.2 < x.2
    · rw [if_pos hc]
      refine List.sorted_cons.2 ⟨?_, h⟩
      intro b hb
      rcases List.mem_cons.1 hb with rfl | hb
      · exact Nat.le_of_lt hc
      · exact le_trans (hhd b hb) (Nat.le_of_lt hc)
    · rw [if_neg hc]
      refine List.sorted_cons.2 ⟨?_, ih ht⟩
      intro b hb
      rcases mem_insertCountDesc.1 hb with rfl | hb
      · exact Nat.le_of_not_lt hc
      · exact hhd b hb

theorem sorted_sortCountsDesc (l : List (String × Nat)) :
    (sortCountsDesc l).Sorted (fun a b => b.2 ≤ a.2) := by
  induction l with
  | nil => simp [sortCountsDesc]
  | cons hd t ih => exact sorted_insertCountDesc ih

/-! ## Demo annotation logs for concrete witnesses and counterexamples -/

/-- One user, one pair, authoritative label "unsure". -/
def logUnsureOnly : List Rec := [mkRec "E" "N" "unsure" "u1" "t1"]

/-- Six users, 3 "yes" and 3 "no" votes on one pair. -/
def logThreeThree : List Rec :=
  [mkRec "E" "N" "yes" "u1" "t", mkRec "E" "N" "yes" "u2" "t", mkRec "E" "N" "yes" "u3" "t",
   mkRec "E" "N" "no" "u4" "t", mkRec "E" "N" "no" "u5" "t", mkRec "E" "N" "no" "u6" "t"]

/-- Four users, 3 "yes" and 1 "no" vote on one pair. -/
def logThreeOne : List Rec :=
  [mkRec "E" "N" "yes" "u1" "t", mkRec "E" "N" "yes" "u2" "t", mkRec "E" "N" "yes" "u3" "t",
   mkRec "E" "N" "no" "u4" "t"]

/-- Three users on one pair, the third one with authoritative label "unsure". -/
def logTwoYesOneUnsure : List Rec :=
  [mkRec "E" "N" "yes" "u1" "t", mkRec "E" "N" "yes" "u2" "t", mkRec "E" "N" "unsure" "u3" "t"]

/-- Exactly two distinct users labeled the pair. -/
def logTwoUsers : List Rec := [mkRec "E" "N" "yes" "u1" "t", mkRec "E" "N" "yes" "u2" "t"]

/-- Exactly three distinct users labeled the pair (with non-"unsure" labels). -/
def logThreeUsers : List Rec :=
  [mkRec "E" "N" "yes" "u1" "t", mkRec "E" "N" "yes" "u2" "t", mkRec "E" "N" "no" "u3" "t"]

/-- One pair resolved by a single "yes" (redundancy target 0, margin 1). -/
def logResolved : List Rec := [mkRec "E" "N" "yes" "u1" "t"]

/-- One pair with a 1-1 "yes"/"no" split between two users. -/
def logSplit : List Rec := [mkRec "E" "N" "yes" "u1" "t", mkRec "E" "N" "no" "u2" "t"]

/-- Six users: five labeled two pairs each, the sixth labeled one pair. -/
def logTop : List Rec :=
  [mkRec "a" "1" "yes" "u1" "t", mkRec "a" "2" "yes" "u1" "t",
   mkRec "a" "1" "yes" "u2" "t", mkRec "a" "2" "yes" "u2" "t",
   mkRec "a" "1" "yes" "u3" "t", mkRec "a" "2" "yes" "u3" "t",
   mkRec "a" "1" "yes" "u4" "t", mkRec "a" "2" "yes" "u4" "t",
   mkRec "a" "1" "yes" "u5" "t", mkRec "a" "2" "yes" "u5" "t",
   mkRec "a" "1" "yes" "u6" "t"]

/-! ## Claim C3: ambiguity classification -/

/-- Claim C3 (amended): a pair is classified as ambiguously labeled exactly
when it carries at least one authoritative non-"unsure" record and
`|votes(yes) - votes(no)| < M` over distinct users' authoritative records;
in particular yes=3/no=3 with M=1 is ambiguous and yes=3/no=1 with M=1 is
not. -/
theorem c3_ambiguous_iff (rs : List Rec) (M : Int) (e n : String) :
    (e, n) ∈ ambiguouslyLabeledPairs rs M ↔
      ((∃ r ∈ uniqueResults false rs, r.id_existing = e ∧ r.id_new = n) ∧
        |(yesCount rs e n : Int) - (noCount rs e n : Int)| < M) := by
  rw [ambiguouslyLabeledPairs, List.mem_filter]
  simp only [pairKeys, mem_dedupKeepFirst_iff, List.mem_map, decide_eq_true_eq, Prod.mk.injEq]

/-- Claim C3 counterexample: in a log whose only record for the pair is an
authoritative "unsure", the claimed vote condition |0 - 0| < 1 holds, yet
the pair is not classified as ambiguous — the claimed "exactly when" fails. -/
theorem c3_claim_counterexample :
    ("E", "N") ∉ ambiguouslyLabeledPairs logUnsureOnly 1 ∧
    |(yesCount logUnsureOnly "E" "N" : Int) - (noCount logUnsureOnly "E" "N" : Int)| < 1 := by
  decide

/-- Witness for C3 at the claim's own vote counts. -/
theorem c3_ambiguous_witness :
    ("E", "N") ∈ ambiguouslyLabeledPairs logThreeThree 1 ∧
    ("E", "N") ∉ ambiguouslyLabeledPairs logThreeOne 1 := by
  constructor
  · exact (c3_ambiguous_iff logThreeThree 1 "E" "N").mpr (by decide)
  · intro h
    exact absurd ((c3_ambiguous_iff logThreeOne 1 "E" "N").mp h) (by decide)

/-! ## Claim C4: redundancy classification -/

/-- Distinct users holding an authoritative (latest-per-user, any label)
record for the pair — the reading of "authoritative records from R+1
distinct users" in claim C4. -/
def authUserCount (results : List Rec) (e n : String) : Nat :=
  (dedupKeepFirst (((uniqueResults true results).filter
    (fun r => r.id_existing == e && r.id_new == n)).map (fun r => r.username))).length

/-- Claim C4 (amended): a pair is classified as insufficiently labeled
exactly when it carries at least one authoritative non-"unsure" record and
fewer than R+1 distinct users hold an authoritative non-"unsure" record for
it (users whose authoritative label is "unsure" do not count). -/
theorem c4_insufficient_iff (rs : List Rec) (R : Nat) (e n : String) :
    (e, n) ∈ insufficientlyLabeledPairs rs R ↔
      ((∃ r ∈ uniqueResults false rs, r.id_existing = e ∧ r.id_new = n) ∧
        uniqueUserCount rs e n < R + 1) := by
  rw [insufficientlyLabeledPairs, List.mem_filter]
  simp only [pairKeys, mem_dedupKeepFirst_iff, List.mem_map, decide_eq_true_eq, Prod.mk.injEq]

/-- Claim C4 counterexample: a pair with authoritative records from three
distinct users (R+1 = 3) — two "yes" and one "unsure" — is still classified
as insufficiently labeled, because the "unsure" user is not counted. -/
theorem c4_claim_counterexample :
    ("E", "N") ∈ insufficientlyLabeledPairs logTwoYesOneUnsure 2 ∧
    ¬ (authUserCount logTwoYesOneUnsure "E" "N" < 2 + 1) := by
  decide

/-- Witness for C4 at the claim's own user counts (non-"unsure" labels). -/
theorem c4_insufficient_witness :
    ("E", "N") ∈ insufficientlyLabeledPairs logTwoUsers 2 ∧
    ("E", "N") ∉ insufficientlyLabeledPairs logThreeUsers 2 := by
  constructor
  · exact (c4_insufficient_iff logTwoUsers 2 "E" "N").mpr (by decide)
  · intro h
    exact absurd ((c4_insufficient_iff logThreeUsers 2 "E" "N").mp h) (by decide)

/-! ## Claim C5: last write wins -/

theorem filter_sameKey_dedupLast_append (l : List Rec) (r : Rec) :
    (dedupLast (l ++ [r])).filter (fun x => sameKey x r) = [r] := by
  induction l with
  | nil =>
    rw [List.nil_append, dedupLast]
    simp [dedupLast, sameKey]
  | cons h t ih =>
    rw [List.cons_append, dedupLast]
    by_cases hany : (t ++ [r]).any (sameKey h)
    · rw [if_pos hany]
      exact ih
    · rw [if_neg hany]
      have hkr : sameKey h r = false := by
        by_contra hc
        exact hany (List.any_eq_true.2
          ⟨r, List.mem_append_right _ (List.mem_singleton.2 rfl),
            eq_true_of_ne_false hc⟩)
      rw [List.filter_cons_of_neg (by simp [hkr])]
      exact ih

/-- Claim C5: calling `add_result` twice with the same (id_existing, id_new,
username) and different (valid) match values appends both records to the
append-only log; in the deduplicated result set only the later record
remains authoritative for that user and pair, while the earlier record is
superseded but never deleted from the log. -/
theorem c5_last_write_wins (rs : List Rec) (e n u m1 m2 t1 t2 : String)
    (h1 : m1 ∈ (["yes", "no", "unsure"] : List String))
    (h2 : m2 ∈ (["yes", "no", "unsure"] : List String)) (hne : m1 ≠ m2) :
    (addResult rs e n m1 u t1).1 = none ∧
    (addResult ((addResult rs e n m1 u t1).2) e n m2 u t2).1 = none ∧
    (addResult ((addResult rs e n m1 u t1).2) e n m2 u t2).2 =
      rs ++ [mkRec e n m1 u t1, mkRec e n m2 u t2] ∧
    (uniqueResults true (rs ++ [mkRec e n m1 u t1, mkRec e n m2 u t2])).filter
      (fun x => sameKey x (mkRec e n m2 u t2)) = [mkRec e n m2 u t2] ∧
    mkRec e n m1 u t1 ∈ rs ++ [mkRec e n m1 u t1, mkRec e n m2 u t2] ∧
    mkRec e n m1 u t1 ∉ uniqueResults true (rs ++ [mkRec e n m1 u t1, mkRec e n m2 u t2]) := by
  have ha1 : addResult rs e n m1 u t1 = (none, rs ++ [mkRec e n m1 u t1]) := by
    rw [addResult, if_neg (not_not_intro h1)]
  have ha2 : addResult (rs ++ [mkRec e n m1 u t1]) e n m2 u t2 =
      (none, (rs ++ [mkRec e n m1 u t1]) ++ [mkRec e n m2 u t2]) := by
    rw [addResult, if_neg (not_not_intro h2)]
  have happ : (rs ++ [mkRec e n m1 u t1]) ++ [mkRec e n m2 u t2] =
      rs ++ [mkRec e n m1 u t1, mkRec e n m2 u t2] := by
    rw [List.append_assoc]
    rfl
  have huniq : uniqueResults true (rs ++ [mkRec e n m1 u t1, mkRec e n m2 u t2]) =
      dedupLast (rs ++ [mkRec e n m1 u t1, mkRec e n m2 u t2]) := by
    simp [uniqueResults]
  have hfilter : (uniqueResults true (rs ++ [mkRec e n m1 u t1, mkRec e n m2 u t2])).filter
      (fun x => sameKey x (mkRec e n m2 u t2)) = [mkRec e n m2 u t2] := by
    rw [huniq, ← happ]
    exact filter_sameKey_dedupLast_append (rs ++ [mkRec e n m1 u t1]) (mkRec e n m2 u t2)
  refine ⟨by rw [ha1], by rw [ha1, ha2], by rw [ha1, ha2, happ], hfilter, ?_, ?_⟩
  · exact List.mem_append_right _ (List.mem_cons_self _ _)
  · intro hmem
    have hsk : sameKey (mkRec e n m1 u t1) (mkRec e n m2 u t2) = true := by
      simp [sameKey, mkRec]
    have : mkRec e n m1 u t1 ∈ (uniqueResults true
        (rs ++ [mkRec e n m1 u t1, mkRec e n m2 u t2])).filter
        (fun x => sameKey x (mkRec e n m2 u t2)) :=
      List.mem_filter.2 ⟨hmem, hsk⟩
    rw [hfilter, List.mem_singleton] at this
    exact hne (congrArg Rec.matchLabel this)

/-- Witness for C5: user "alice" labels the pair (E1, N1) "yes" at t1 and
"no" at t2. -/
theorem c5_last_write_wins_witness :
    (addResult [] "E1" "N1" "yes" "alice" "t1").1 = none ∧
    (addResult ((addResult [] "E1" "N1" "yes" "alice" "t1").2) "E1" "N1" "no" "alice" "t2").1 =
      none ∧
    (addResult ((addResult [] "E1" "N1" "yes" "alice" "t1").2) "E1" "N1" "no" "alice" "t2").2 =
      [] ++ [mkRec "E1" "N1" "yes" "alice" "t1", mkRec "E1" "N1" "no" "alice" "t2"] ∧
    (uniqueResults true
        ([] ++ [mkRec "E1" "N1" "yes" "alice" "t1", mkRec "E1" "N1" "no" "alice" "t2"])).filter
      (fun x => sameKey x (mkRec "E1" "N1" "no" "alice" "t2")) =
        [mkRec "E1" "N1" "no" "alice" "t2"] ∧
    mkRec "E1" "N1" "yes" "alice" "t1" ∈
      [] ++ [mkRec "E1" "N1" "yes" "alice" "t1", mkRec "E1" "N1" "no" "alice" "t2"] ∧
    mkRec "E1" "N1" "yes" "alice" "t1" ∉
      uniqueResults true
        ([] ++ [mkRec "E1" "N1" "yes" "alice" "t1", mkRec "E1" "N1" "no" "alice" "t2"]) :=
  c5_last_write_wins [] "E1" "N1" "alice" "yes" "no" "t1" "t2" (by decide) (by decide) (by decide)

/-! ## Claim C6: label validation in add_result -/

/-- Claim C6: `add_result` raises exactly when the match label is not one of
"yes"/"no"/"unsure"; on the error the log is unchanged, and on success
exactly one record is appended. -/
theorem c6_add_result_validation (rs : List Rec) (e n m u t : String) :
    ((addResult rs e n m u t).1 ≠ none ↔ m ∉ (["yes", "no", "unsure"] : List String)) ∧
    (m ∈ (["yes", "no", "unsure"] : List String) →
      (addResult rs e n m u t).2 = rs ++ [mkRec e n m u t] ∧
      ((addResult rs e n m u t).2).length = rs.length + 1) ∧
    (m ∉ (["yes", "no", "unsure"] : List String) → (addResult rs e n m u t).2 = rs) := by
  by_cases hm : m ∈ (["yes", "no", "unsure"] : List String)
  · rw [addResult, if_neg (not_not_intro hm)]
    refine ⟨⟨fun hc => absurd rfl hc, fun hc => absurd hm hc⟩, fun _ => ⟨rfl, ?_⟩,
      fun hc => absurd hm hc⟩
    rw [List.length_append, List.length_singleton]
  · rw [addResult, if_pos hm]
    exact ⟨⟨fun _ => hm, fun _ hc => Option.noConfusion hc⟩, fun hc => absurd hc hm,
      fun _ => rfl⟩

/-- Witness for C6: an invalid label "maybe" leaves the log unchanged, a
valid label "yes" appends exactly one record. -/
theorem c6_add_result_witness :
    (addResult [] "E1" "N1" "maybe" "alice" "t").2 = [] ∧
    (addResult [] "E1" "N1" "yes" "alice" "t").2 = [] ++ [mkRec "E1" "N1" "yes" "alice" "t"] ∧
    (addResult [] "E1" "N1" "maybe" "alice" "t").1 ≠ none :=
  ⟨(c6_add_result_validation [] "E1" "N1" "maybe" "alice" "t").2.2 (by decide),
   ((c6_add_result_validation [] "E1" "N1" "yes" "alice" "t").2.1 (by decide)).1,
   (c6_add_result_validation [] "E1" "N1" "maybe" "alice" "t").1.mpr (by decide)⟩

/-! ## Claim C7: cross-validate versus unlabeled scheduling -/

/-- Claim C7 (amended): for every state and user, the pairs served under the
"cross-validate" policy form a subset (not in general a strict one) of the
pairs served under the "unlabeled" policy. -/
theorem c7_cross_validate_subset (pairsTable : List (String × String))
    (shuffle : List (String × String) → List (String × String)) (rs : List Rec)
    (R : Nat) (M : Int) (user : Option String) (cv unl : List (String × String))
    (p : String × String)
    (hcv : nextPairs pairsTable shuffle rs R M "cross-validate" user = Except.ok cv)
    (hun : nextPairs pairsTable shuffle rs R M "unlabeled" user = Except.ok unl)
    (hp : p ∈ cv) : p ∈ unl := by
  have hcveq : nextPairs pairsTable shuffle rs R M "cross-validate" user = Except.ok
      ((indexUnion (ambiguouslyLabeledPairs rs M) (insufficientlyLabeledPairs rs R)).filter
        (fun q => decide (q ∉ labeledPairsByUser rs user))) := rfl
  have huneq : nextPairs pairsTable shuffle rs R M "unlabeled" user = Except.ok
      ((indexUnion
        (indexUnion (ambiguouslyLabeledPairs rs M) (insufficientlyLabeledPairs rs R))
        (unlabeledPairs pairsTable shuffle rs)).filter
          (fun q => decide (q ∉ labeledPairsByUser rs user))) := rfl
  rw [hcveq] at hcv
  rw [huneq] at hun
  have hcv2 := Except.ok.inj hcv
  have hun2 := Except.ok.inj hun
  subst hcv2 hun2
  rcases List.mem_filter.1 hp with ⟨hmem, hdec⟩
  exact List.mem_filter.2 ⟨List.mem_append_left _ hmem, hdec⟩

/-- Claim C7 counterexample: with one pair resolved by a single "yes" under
redundancy 0 and margin 1, both policies serve the empty list, so the
cross-validate set is not a strict subset of the unlabeled set. -/
theorem c7_claim_counterexample :
    nextPairs [("E", "N")] (fun l => l) logResolved 0 1 "cross-validate" (some "u2") =
      Except.ok [] ∧
    nextPairs [("E", "N")] (fun l => l) logResolved 0 1 "unlabeled" (some "u2") =
      Except.ok [] :=
  ⟨rfl, rfl⟩

/-- Witness for C7: a 1-1 split pair served under cross-validate is also
served under unlabeled. -/
theorem c7_cross_validate_witness :
    nextPairs [("E", "N")] (fun l => l) logSplit 0 1 "cross-validate" (some "u3") =
      Except.ok [("E", "N")] ∧
    nextPairs [("E", "N")] (fun l => l) logSplit 0 1 "unlabeled" (some "u3") =
      Except.ok [("E", "N")] ∧
    ("E", "N") ∈ ([("E", "N")] : List (String × String)) :=
  ⟨rfl, rfl,
   c7_cross_validate_subset [("E", "N")] (fun l => l) logSplit 0 1 (some "u3")
     [("E", "N")] [("E", "N")] ("E", "N") rfl rfl (by decide)⟩

/-! ## Claim C9: valid_pair checks the two columns independently -/

/-- Claim C9: for every non-empty pairs table, `valid_pair` returns true
exactly when id_existing occurs in the id_existing column and id_new occurs
in the id_new column; since the memberships are independent, some
combinations that are not a row of the table are accepted (shown on a
concrete table). -/
theorem c9_valid_pair_iff :
    (∀ (pairsTable : List (String × String)) (e n : String), pairsTable ≠ [] →
      (validPair pairsTable e n = true ↔
        e ∈ pairsTable.map Prod.fst ∧ n ∈ pairsTable.map Prod.snd)) ∧
    (validPair [("a", "x"), ("b", "y")] "a" "y" = true ∧
      ("a", "y") ∉ ([("a", "x"), ("b", "y")] : List (String × String))) := by
  constructor
  · intro pt e n _hne
    simp [validPair]
  · decide

/-- Witness for C9 on a concrete two-row table. -/
theorem c9_valid_pair_witness :
    ([("a", "x"), ("b", "y")] : List (String × String)) ≠ [] ∧
    (validPair [("a", "x"), ("b", "y")] "a" "y" = true ↔
      "a" ∈ ([("a", "x"), ("b", "y")] : List (String × String)).map Prod.fst ∧
      "y" ∈ ([("a", "x"), ("b", "y")] : List (String × String)).map Prod.snd) :=
  ⟨by decide, c9_valid_pair_iff.1 [("a", "x"), ("b", "y")] "a" "y" (by decide)⟩

/-! ## Claim C10: top labelers -/

/-- Claim C10: `get_top_labelers` returns at most five entries; every entry
carries the user's authoritative record count, and every user with an
authoritative record who is not listed has a count no larger than any listed
entry's count. -/
theorem c10_top_labelers (rs : List Rec) :
    (getTopLabelers rs).length ≤ 5 ∧
    (∀ pr ∈ getTopLabelers rs, pr.2 = userRecordCount rs pr.1) ∧
    (∀ pr ∈ getTopLabelers rs, ∀ v, v ∈ (uniqueResults true rs).map Rec.username →
      (∀ q ∈ getTopLabelers rs, q.1 ≠ v) → userRecordCount rs v ≤ pr.2) := by
  refine ⟨?_, ?_, ?_⟩
  · simp only [getTopLabelers]
    exact List.length_take_le _ _
  · intro pr hpr
    simp only [getTopLabelers] at hpr
    have h1 := List.mem_of_mem_take hpr
    rcases List.mem_map.1 (mem_sortCountsDesc.1 h1) with ⟨v, _, heq⟩
    rw [← heq]
  · intro pr hpr v hv hnot
    simp only [getTopLabelers] at hpr hnot
    have hv2 : v ∈ dedupKeepFirst ((uniqueResults true rs).map (fun r => r.username)) :=
      mem_dedupKeepFirst_iff.2 hv
    have he : (v, userRecordCount rs v) ∈
        (dedupKeepFirst ((uniqueResults true rs).map (fun r => r.username))).map
          (fun u => (u, userRecordCount rs u)) :=
      List.mem_map_of_mem _ hv2
    have hes : (v, userRecordCount rs v) ∈ sortCountsDesc
        ((dedupKeepFirst ((uniqueResults true rs).map (fun r => r.username))).map
          (fun u => (u, userRecordCount rs u))) :=
      mem_sortCountsDesc.2 he
    have hnt : (v, userRecordCount rs v) ∉ (sortCountsDesc
        ((dedupKeepFirst ((uniqueResults true rs).map (fun r => r.username))).map
          (fun u => (u, userRecordCount rs u)))).take 5 :=
      fun hc => (hnot _ hc) rfl
    have hdrop : (v, userRecordCount rs v) ∈ (sortCountsDesc
        ((dedupKeepFirst ((uniqueResults true rs).map (fun r => r.username))).map
          (fun u => (u, userRecordCount rs u)))).drop 5 := by
      have hsplit := List.take_append_drop 5 (sortCountsDesc
        ((dedupKeepFirst ((uniqueResults true rs).map (fun r => r.username))).map
          (fun u => (u, userRecordCount rs u))))
      rw [← hsplit] at hes
      rcases List.mem_append.1 hes with h | h
      · exact absurd h hnt
      · exact h
    have hsorted : ((sortCountsDesc
        ((dedupKeepFirst ((uniqueResults true rs).map (fun r => r.username))).map
          (fun u => (u, userRecordCount rs u)))).take 5 ++
        (sortCountsDesc
        ((dedupKeepFirst ((uniqueResults true rs).map (fun r => r.username))).map
          (fun u => (u, userRecordCount rs u)))).drop 5).Pairwise
          (fun a b : String × Nat => b.2 ≤ a.2) := by
      rw [List.take_append_drop]
      exact sorted_sortCountsDesc _
    exact (List.pairwise_append.1 hsorted).2.2 pr hpr _ hdrop

/-- Witness for C10: six users, the five two-record users are listed and the
single-record user "u6" is omitted with a smaller count. -/
theorem c10_top_labelers_witness :
    (getTopLabelers logTop).length ≤ 5 ∧
    "u6" ∈ (uniqueResults true logTop).map Rec.username ∧
    userRecordCount logTop "u6" ≤ ("u5", 2).2 :=
  ⟨(c10_top_labelers logTop).1, by decide,
   (c10_top_labelers logTop).2.2 ("u5", 2) (by decide) "u6" (by decide) (by decide)⟩

/-! ## Claim C2: Two-Way Area Overlap -/

/-- A 2-cell rasterised polygon. -/
def demoGeomA : Geom := {(0, 0), (0, 1)}

/-- A 2-cell rasterised polygon overlapping `demoGeomA` in one cell. -/
def demoGeomB : Geom := {(0, 1), (1, 1)}

/-- Claim C2: for a position-wise aligned pair of geometries with positive
areas, the Two-Way Area Overlap equals intersection_area / min(area₁, area₂);
it is symmetric, lies in [0, 1], is 0 for disjoint geometries and is 1 for a
polygon paired with an identical copy of itself. -/
theorem c2_twao_properties (g1 g2 : Geom) (h1 : 0 < area g1) (h2 : 0 < area g2) :
    symmetricalPairwiseRelativeOverlap [g1] [g2] = [twao g1 g2] ∧
    twao g1 g2 = interArea g1 g2 / min (area g1) (area g2) ∧
    twao g1 g2 = twao g2 g1 ∧
    0 ≤ twao g1 g2 ∧ twao g1 g2 ≤ 1 ∧
    (g1 ∩ g2 = ∅ → twao g1 g2 = 0) ∧
    twao g1 g1 = 1 := by
  have hmin : ∀ ga gb : Geom, twao ga gb = interArea ga gb / min (area ga) (area gb) := by
    intro ga gb
    rw [twao, min_def]
  have hminpos : 0 < min (area g1) (area g2) := lt_min h1 h2
  have hinter : interArea g1 g2 = interArea g2 g1 := by
    rw [interArea, interArea, Finset.inter_comm]
  refine ⟨rfl, hmin g1 g2, ?_, ?_, ?_, ?_, ?_⟩
  · rw [hmin g1 g2, hmin g2 g1, hinter, min_comm]
  · rw [hmin g1 g2]
    refine div_nonneg ?_ (le_of_lt hminpos)
    rw [interArea]
    exact Nat.cast_nonneg _
  · rw [hmin g1 g2]
    refine (div_le_one hminpos).2 (le_min ?_ ?_)
    · exact_mod_cast Nat.cast_le.2 (Finset.card_le_card Finset.inter_subset_left)
    · exact_mod_cast Nat.cast_le.2 (Finset.card_le_card Finset.inter_subset_right)
  · intro hdisj
    rw [hmin g1 g2, interArea, hdisj]
    simp
  · rw [twao, interArea, Finset.inter_self, if_pos (le_refl (area g1))]
    exact div_self (ne_of_gt h1)

/-- Witness for C2 on two overlapping 2-cell polygons. -/
theorem c2_twao_witness :
    0 < area demoGeomA ∧ 0 < area demoGeomB ∧ twao demoGeomA demoGeomB ≤ 1 :=
  ⟨by decide, by decide,
   (c2_twao_properties demoGeomA demoGeomB (by decide) (by decide)).2.2.2.2.1⟩

/-! ## Claim C1: coverage of the generated candidate pairs -/

theorem overlapping_mem {gdf1 gdf2 : List Row} {p : String × String}
    (h : p ∈ overlapping gdf1 gdf2) :
    p.1 ∈ gdf1.map Row.id ∧ p.2 ∈ gdf2.map Row.id := by
  rcases List.mem_flatMap.1 h with ⟨b2, hb2, hmem⟩
  rcases List.mem_map.1 hmem with ⟨b1, hb1, heq⟩
  subst heq
  exact ⟨List.mem_map_of_mem Row.id (List.mem_of_mem_filter hb1),
    List.mem_map_of_mem Row.id hb2⟩

theorem mem_insertOverlapDesc {x y : String × String × ℚ}
    {l : List (String × String × ℚ)} :
    y ∈ insertOverlapDesc x l ↔ y = x ∨ y ∈ l := by
  induction l with
  | nil => simp [insertOverlapDesc]
  | cons hd t ih =>
    rw [insertOverlapDesc]
    by_cases hc : hd.2.2 < x.2.2
    · rw [if_pos hc]
      simp [List.mem_cons]
    · rw [if_neg hc]
      simp only [List.mem_cons, ih]
      constructor
      · rintro (h | h | h)
        · exact Or.inr (Or.inl h)
        · exact Or.inl h
        · exact Or.inr (Or.inr h)
      · rintro (h | h | h)
        · exact Or.inr (Or.inl h)
        · exact Or.inl h
        · exact Or.inr (Or.inr h)

theorem mem_sortOverlapDesc {y : String × String × ℚ} {l : List (String × String × ℚ)} :
    y ∈ sortOverlapDesc l ↔ y ∈ l := by
  induction l with
  | nil => simp [sortOverlapDesc]
  | cons hd t ih =>
    rw [sortOverlapDesc, mem_insertOverlapDesc]
    simp [ih]

theorem determineOverlappingCandidatePairs_mem {gdf1 gdf2 : List Row} {tol : ℚ}
    {p : String × String} (h : p ∈ determineOverlappingCandidatePairs gdf1 gdf2 tol) :
    p.1 ∈ gdf1.map Row.id ∧ p.2 ∈ gdf2.map Row.id := by
  simp only [determineOverlappingCandidatePairs] at h
  rcases List.mem_map.1 (mem_dedupKeepFirst_iff.1 h) with ⟨t, ht, heq⟩
  have ht2 : t ∈ sortOverlapDesc ((((overlapping gdf1 gdf2).filterMap fun ij =>
      match locRow gdf1 ij.1, locRow gdf2 ij.2 with
      | some a, some b => some (ij.1, ij.2, twao a.geom b.geom)
      | _, _ => none).filter fun t => decide (t.2.2 > tol))) := by
    rcases List.mem_append.1 ht with h | h
    · exact mem_of_mem_dedupByKey h
    · exact mem_of_mem_dedupByKey h
  have ht3 := List.mem_of_mem_filter (mem_sortOverlapDesc.1 ht2)
  rcases List.mem_filterMap.1 ht3 with ⟨ij, hij, hmatch⟩
  have hov := overlapping_mem hij
  cases hl1 : locRow gdf1 ij.1 with
  | none => rw [hl1] at hmatch; cases hl2 : locRow gdf2 ij.2 <;> rw [hl2] at hmatch <;>
      exact Option.noConfusion hmatch
  | some a =>
    cases hl2 : locRow gdf2 ij.2 with
    | none => rw [hl1, hl2] at hmatch; exact Option.noConfusion hmatch
    | some b =>
      rw [hl1, hl2] at hmatch
      have := Option.some.inj hmatch
      rw [← heq, ← this]
      exact hov

theorem pickMin_mem {l : List (String × Int)} {x : String × Int} (h : pickMin l = some x) :
    x ∈ l := by
  induction l generalizing x with
  | nil => exact Option.noConfusion h
  | cons c rest ih =>
    rw [pickMin] at h
    cases hrec : pickMin rest with
    | none =>
      rw [hrec] at h
      exact (Option.some.inj h) ▸ List.mem_cons_self _ _
    | some b =>
      rw [hrec] at h
      have hx := Option.some.inj h
      by_cases hb : b.2 < c.2
      · rw [if_pos hb] at hx
        exact hx ▸ List.mem_cons_of_mem _ (ih hrec)
      · rw [if_neg hb] at hx
        exact hx ▸ List.mem_cons_self _ _

theorem nearestIn_mem {Y : List Row} {g : Geom} {cap : Option ℚ} {yid : String}
    (h : nearestIn Y g cap = some yid) : yid ∈ Y.map Row.id := by
  simp only [nearestIn] at h
  rcases Option.map_eq_some'.1 h with ⟨x, hx, hxy⟩
  have hmem : x ∈ Y.filterMap (fun y => (distSq g y.geom).map (fun d => (y.id, d))) := by
    cases cap with
    | none => exact pickMin_mem hx
    | some cval => exact List.mem_of_mem_filter (pickMin_mem hx)
  rcases List.mem_filterMap.1 hmem with ⟨y, hy, hopt⟩
  rcases Option.map_eq_some'.1 hopt with ⟨d, _, hpair⟩
  rw [← hxy, ← hpair]
  exact List.mem_map_of_mem Row.id hy

theorem nearestNeighborPairs_mem {X Y : List Row} {cap : Option ℚ} {p : String × String}
    (h : p ∈ nearestNeighborPairs X Y cap) :
    p.1 ∈ X.map Row.id ∧ p.2 ∈ Y.map Row.id := by
  rcases List.mem_filterMap.1 h with ⟨x, hx, hopt⟩
  rcases Option.map_eq_some'.1 hopt with ⟨yid, hnear, hpair⟩
  rw [← hpair]
  exact ⟨List.mem_map_of_mem Row.id hx, nearestIn_mem hnear⟩

theorem identifyCandidatePairs_mem {gdf1 gdf2 : List Row} {md : Option ℚ}
    {p : String × String} (h : p ∈ identifyCandidatePairs gdf1 gdf2 md) :
    p.1 ∈ gdf1.map Row.id ∧ p.2 ∈ gdf2.map Row.id := by
  simp only [identifyCandidatePairs] at h
  rcases List.mem_append.1 (mem_dedupKeepFirst_iff.1 h) with hov | hnear
  · exact determineOverlappingCandidatePairs_mem hov
  · by_cases hcond : md ≠ some 0 ∧ gdf1 ≠ [] ∧ gdf2 ≠ []
    · rw [if_pos hcond] at hnear
      rcases List.mem_append.1 hnear with hna | hnb
      · have := nearestNeighborPairs_mem hna
        refine ⟨?_, this.2⟩
        rcases List.mem_map.1 this.1 with ⟨b, hb, hbe⟩
        exact hbe ▸ List.mem_map_of_mem Row.id (List.mem_of_mem_filter hb)
      · rcases List.mem_map.1 hnb with ⟨q, hq, hqe⟩
        have := nearestNeighborPairs_mem hq
        rcases List.mem_map.1 this.1 with ⟨b, hb, hbe⟩
        refine ⟨?_, ?_⟩
        · rw [← hqe]
          exact this.2
        · rw [← hqe]
          exact hbe ▸ List.mem_map_of_mem Row.id (List.mem_of_mem_filter hb)
    · rw [if_neg hcond] at hnear
      exact absurd hnear (List.not_mem_nil p)

theorem verifyExhaustivePairs_ok {gdf1 gdf2 : List Row} {pairs : List (String × String)}
    {u : Unit} (h : verifyExhaustivePairs gdf1 gdf2 pairs = Except.ok u) :
    gdf1.length = (dedupKeepFirst (pairs.map Prod.fst)).length ∧
    gdf2.length = (dedupKeepFirst (pairs.map Prod.snd)).length := by
  rw [verifyExhaustivePairs] at h
  by_cases hc1 : gdf1.length ≠ (dedupKeepFirst (pairs.map Prod.fst)).length
  · rw [if_pos hc1] at h
    exact Except.noConfusion h
  · rw [if_neg hc1] at h
    by_cases hc2 : gdf2.length ≠ (dedupKeepFirst (pairs.map Prod.snd)).length
    · rw [if_pos hc2] at h
      exact Except.noConfusion h
    · exact ⟨not_ne_iff.1 hc1, not_ne_iff.1 hc2⟩

theorem mkCandidatePairs_ok {a b : List Row} {crsA crsB : String}
    {pairs : List (String × String)} {c : CandidatePairs}
    (h : mkCandidatePairs a b crsA crsB pairs = Except.ok c) :
    c = ⟨a, b, pairs⟩ := by
  rw [mkCandidatePairs] at h
  split_ifs at h
  all_goals first
    | exact Except.noConfusion h
    | exact (Except.ok.inj h).symm

set_option maxHeartbeats 2000000 in
/-- With all optional parameters unset, `create_candidate_pairs_dataset`
reduces to: ensure unique indices, assign neighborhoods, identify pairs,
verify exhaustiveness, build the container. -/
theorem createCandidatePairsDataset_no_options (O : GeoOracles)
    (raw1 raw2 : List (String × Geom)) (crs1 crs2 : String) :
    createCandidatePairsDataset O raw1 raw2 crs1 crs2 none none none none none none =
      (match verifyExhaustivePairs
          (assignNeighborhoods O (ensureUniqueIndex raw1 raw2).1)
          (assignNeighborhoods O (ensureUniqueIndex raw1 raw2).2)
          (identifyCandidatePairs (assignNeighborhoods O (ensureUniqueIndex raw1 raw2).1)
            (assignNeighborhoods O (ensureUniqueIndex raw1 raw2).2) none) with
        | Except.error e => Except.error e
        | Except.ok _ =>
          mkCandidatePairs (assignNeighborhoods O (ensureUniqueIndex raw1 raw2).1)
            (assignNeighborhoods O (ensureUniqueIndex raw1 raw2).2) crs1 crs2
            (identifyCandidatePairs (assignNeighborhoods O (ensureUniqueIndex raw1 raw2).1)
              (assignNeighborhoods O (ensureUniqueIndex raw1 raw2).2) none)) := rfl

/-- Core counting argument: when the pairs draw their ids from the datasets
and the verified counts match, every building is covered. -/
theorem coverage_core (gdf1 gdf2 : List Row) (ps : List (String × String))
    (hmem : ∀ p ∈ ps, p.1 ∈ gdf1.map Row.id ∧ p.2 ∈ gdf2.map Row.id)
    (hl1 : gdf1.length = (dedupKeepFirst (ps.map Prod.fst)).length)
    (hl2 : gdf2.length = (dedupKeepFirst (ps.map Prod.snd)).length) :
    (∀ r ∈ gdf1, ∃ p ∈ ps, p.1 = r.id) ∧ (∀ r ∈ gdf2, ∃ p ∈ ps, p.2 = r.id) := by
  constructor
  · intro r hr
    have hid : r.id ∈ gdf1.map Row.id := List.mem_map_of_mem Row.id hr
    have hsub : ∀ s ∈ dedupKeepFirst (ps.map Prod.fst), s ∈ gdf1.map Row.id := by
      intro s hs
      rcases List.mem_map.1 (mem_dedupKeepFirst_iff.1 hs) with ⟨q, hq, hqe⟩
      exact hqe ▸ (hmem q hq).1
    have hlen : (gdf1.map Row.id).length = (dedupKeepFirst (ps.map Prod.fst)).length := by
      rw [List.length_map]
      exact hl1
    have hin := mem_of_nodup_subset_length_eq (nodup_dedupKeepFirst _) hsub hlen r.id hid
    rcases List.mem_map.1 (mem_dedupKeepFirst_iff.1 hin) with ⟨q, hq, hqe⟩
    exact ⟨q, hq, hqe⟩
  · intro r hr
    have hid : r.id ∈ gdf2.map Row.id := List.mem_map_of_mem Row.id hr
    have hsub : ∀ s ∈ dedupKeepFirst (ps.map Prod.snd), s ∈ gdf2.map Row.id := by
      intro s hs
      rcases List.mem_map.1 (mem_dedupKeepFirst_iff.1 hs) with ⟨q, hq, hqe⟩
      exact hqe ▸ (hmem q hq).2
    have hlen : (gdf2.map Row.id).length = (dedupKeepFirst (ps.map Prod.snd)).length := by
      rw [List.length_map]
      exact hl2
    have hin := mem_of_nodup_subset_length_eq (nodup_dedupKeepFirst _) hsub hlen r.id hid
    rcases List.mem_map.1 (mem_dedupKeepFirst_iff.1 hin) with ⟨q, hq, hqe⟩
    exact ⟨q, hq, hqe⟩

set_option maxHeartbeats 2000000 in
/-- Claim C1 (amended): when run with `max_distance = None` and none of the
optional filter or sampling parameters, a successful return of
`create_candidate_pairs_dataset` guarantees that every building of the
returned dataset A appears as id_existing in some returned pair and every
building of dataset B appears as id_new; when the generated pairs miss a
building, the exhaustiveness verification raises an error instead of
returning.  (With optional filters set the verification still runs, but on
the pre-filter pairs only — see the counterexample.) -/
theorem c1_coverage_without_filters (O : GeoOracles) (raw1 raw2 : List (String × Geom))
    (crs1 crs2 : String) (c : CandidatePairs)
    (h : createCandidatePairsDataset O raw1 raw2 crs1 crs2 none none none none none none =
      Except.ok c) :
    (∀ r ∈ c.dataset_a, ∃ p ∈ c.pairs, p.1 = r.id) ∧
    (∀ r ∈ c.dataset_b, ∃ p ∈ c.pairs, p.2 = r.id) := by
  rw [createCandidatePairsDataset_no_options] at h
  generalize hG1 : assignNeighborhoods O (ensureUniqueIndex raw1 raw2).1 = gdf1 at h
  generalize hG2 : assignNeighborhoods O (ensureUniqueIndex raw1 raw2).2 = gdf2 at h
  generalize hPS : identifyCandidatePairs gdf1 gdf2 none = ps at h
  cases hv : verifyExhaustivePairs gdf1 gdf2 ps with
  | error e =>
    rw [hv] at h
    exact Except.noConfusion h
  | ok u =>
    rw [hv] at h
    have hmk : mkCandidatePairs gdf1 gdf2 crs1 crs2 ps = Except.ok c := h
    have hc := mkCandidatePairs_ok hmk
    obtain ⟨hl1, hl2⟩ := verifyExhaustivePairs_ok hv
    subst hc
    exact coverage_core gdf1 gdf2 ps
      (fun p hp => identifyCandidatePairs_mem (hPS ▸ hp)) hl1 hl2

/-- Trivial oracles for the concrete pipeline runs: a constant H3 cell, the
identity grid disk, empty shape descriptors and identity samplers. -/
def demoOracles : GeoOracles :=
  { h3Index := fun _ => "h"
    h3Disk := fun l => l
    shapeFeatures := fun _ => []
    samplePairsOracle := fun _ l => l
    sampleNbhOracle := fun _ l => l }

/-- A single-cell rasterised footprint. -/
def unitCell : Geom := {(0, 0)}

/-- Claim C1 counterexample: run with `max_distance = None` but with an
overlap range (0, 1/2).  The exhaustiveness check passes (it runs before
filtering), the function returns successfully, the returned dataset A still
holds building "A-0", yet the returned pairs are empty — coverage of the
returned dataset fails without an error being raised. -/
theorem c1_claim_counterexample :
    createCandidatePairsDataset demoOracles [("0", unitCell)] [("0", unitCell)]
        "EPSG:3035" "EPSG:3035" (some (0, 1/2)) none none none none none =
      Except.ok ⟨[⟨"A-0", unitCell, "h"⟩], [⟨"B-0", unitCell, "h"⟩], []⟩ ∧
    (⟨"A-0", unitCell, "h"⟩ : Row) ∈ ([⟨"A-0", unitCell, "h"⟩] : List Row) ∧
    ¬ ∃ p ∈ ([] : List (String × String)), p.1 = "A-0" := by
  refine ⟨?_, List.mem_cons_self _ _, ?_⟩
  · with_unfolding_all rfl
  · rintro ⟨p, hp, -⟩
    exact List.not_mem_nil p hp

/-- Witness for C1 on a successful filter-free run over one overlapping
building per dataset. -/
theorem c1_coverage_witness :
    createCandidatePairsDataset demoOracles [("0", unitCell)] [("0", unitCell)]
        "EPSG:3035" "EPSG:3035" none none none none none none =
      Except.ok ⟨[⟨"A-0", unitCell, "h"⟩], [⟨"B-0", unitCell, "h"⟩], [("A-0", "B-0")]⟩ ∧
    ((∀ r ∈ (⟨[⟨"A-0", unitCell, "h"⟩], [⟨"B-0", unitCell, "h"⟩],
        [("A-0", "B-0")]⟩ : CandidatePairs).dataset_a,
      ∃ p ∈ (⟨[⟨"A-0", unitCell, "h"⟩], [⟨"B-0", unitCell, "h"⟩],
        [("A-0", "B-0")]⟩ : CandidatePairs).pairs, p.1 = r.id) ∧
     (∀ r ∈ (⟨[⟨"A-0", unitCell, "h"⟩], [⟨"B-0", unitCell, "h"⟩],
        [("A-0", "B-0")]⟩ : CandidatePairs).dataset_b,
      ∃ p ∈ (⟨[⟨"A-0", unitCell, "h"⟩], [⟨"B-0", unitCell, "h"⟩],
        [("A-0", "B-0")]⟩ : CandidatePairs).pairs, p.2 = r.id)) :=
  ⟨by with_unfolding_all rfl,
   c1_coverage_without_filters demoOracles [("0", unitCell)] [("0", unitCell)]
     "EPSG:3035" "EPSG:3035"
     ⟨[⟨"A-0", unitCell, "h"⟩], [⟨"B-0", unitCell, "h"⟩], [("A-0", "B-0")]⟩
     (by with_unfolding_all rfl)⟩

end GeoMatcher
